import Mathlib

/-!
Shallow embedding of the review-adder backend (src/backend/app.py).

The backend has two HTTP handlers:
* `create_review` (POST /api/reviews): pydantic validation of the body
  (`ReviewCreate`), then a single MongoDB `insert_one`.
* `upload_image` (POST /api/upload/image): ordered validation (S3 client
  configured, non-empty product id, allowed extension, size bound), then a
  single S3 `put_object`.

Python floats are modelled as rationals (`ℚ`); every float appearing in the
code and in the claims (multiples of 0.1, 0.25, ...) is exactly representable
as a binary double, and doubling / halving is exact for doubles, so the
rational model agrees with the float computation on all inputs of interest.
Python's `round` is round-half-to-even (`pyRound`).  The external effects
(MongoDB insert, S3 put) are modelled by explicit outcome parameters chosen by
the environment, and the handler is a pure function from the request and the
outcome to a result plus the list of writes it performed.
-/

/-- Python's built-in `round` restricted to one argument: round to the nearest
integer, ties to the even integer (banker's rounding). -/
def pyRound (q : ℚ) : ℤ :=
  if q - (⌊q⌋ : ℚ) < 1/2 then ⌊q⌋
  else if 1/2 < q - (⌊q⌋ : ℚ) then ⌊q⌋ + 1
  else if Even ⌊q⌋ then ⌊q⌋ else ⌊q⌋ + 1

/-- `ReviewCreate.validate_rating` from app.py line 84-88: `round(v * 2) / 2`,
rounding the rating to the nearest multiple of 0.5. -/
def validate_rating (v : ℚ) : ℚ := (pyRound (v * 2) : ℚ) / 2

/-- The JSON body of POST /api/reviews as received, before pydantic
validation.  `content`/`images` are `none` when the field is omitted or null. -/
structure ReviewPayload where
  productId : String
  rating : ℚ
  userName : String
  content : Option String
  images : Option (List String)

/-- The pydantic model `ReviewCreate` (app.py lines 75-88) after validation:
field constraints have been checked and the rating field validator applied. -/
structure ReviewCreate where
  product_id : String
  rating : ℚ
  user_name : String
  content : Option String
  images : Option (List String)

/-- Pydantic validation of `ReviewCreate` (app.py lines 75-88): `product_id`
min_length 1, `rating` in [0.5, 5] (constraints run on the raw input, before
the after-mode field validator rounds it), `user_name` min_length 1, `content`
max_length 2000.  On success the rating is the rounded value.  Pydantic
reports all field errors at once; this model returns the first, which is all
the claims need (pass versus fail, and the error class). -/
def ReviewCreate.validate (p : ReviewPayload) : Except String ReviewCreate :=
  if p.productId.length < 1 then
    Except.error "productId: String should have at least 1 character"
  else if p.rating < 1/2 then
    Except.error "rating: Input should be greater than or equal to 0.5"
  else if 5 < p.rating then
    Except.error "rating: Input should be less than or equal to 5"
  else if p.userName.length < 1 then
    Except.error "userName: String should have at least 1 character"
  else if 2000 < (match p.content with | some c => c.length | none => 0) then
    Except.error "content: String should have at most 2000 characters"
  else
    Except.ok { product_id := p.productId, rating := validate_rating p.rating,
                user_name := p.userName, content := p.content, images := p.images }

/-- The pydantic response model `ReviewResponse` (app.py lines 91-96). -/
structure ReviewResponse where
  success : Bool
  review_id : Option String
  message : String
deriving DecidableEq

/-- The MongoDB document inserted by `create_review` (app.py lines 163-176).
Its fields are exactly the keys of the `new_review` dict. -/
structure ReviewDoc where
  reviewId : String
  productId : String
  userId : Option String
  userName : String
  rating : ℚ
  content : String
  images : List String
  createdAt : String
  updatedAt : String
  helpful : ℕ
  helpfulUsers : List String
  status : String
deriving DecidableEq

/-- Outcome of `insert_one`, chosen by the environment: the call returns a
result whose `inserted_id` may be set or not, or the driver throws. -/
inductive DbInsertOutcome where
  | ok (insertedId : Option String)
  | raise (err : String)
deriving DecidableEq

/-- Result of one handler invocation as seen by the HTTP caller: a normal
response body, an `HTTPException` raised with an explicit status, or an
uncaught exception (a server fault). -/
inductive HandlerResult (α : Type) where
  | response (r : α)
  | httpError (status : ℕ) (detail : String)
  | fault (err : String)
deriving DecidableEq

/-- The handler `create_review` (app.py lines 155-187).  `review_id` models
`str(uuid.uuid4())`, `now` models `datetime.utcnow().isoformat() + "Z"`; both
are generated fresh by the environment.  The database is a list of documents;
a completed `insert_one` appends the document, a throwing one does not, and an
uncaught throw escapes the handler as a fault (there is no try/except around
the insert in the source). -/
def create_review (review : ReviewCreate) (review_id now : String)
    (outcome : DbInsertOutcome) (db : List ReviewDoc) :
    HandlerResult ReviewResponse × List ReviewDoc :=
  let new_review : ReviewDoc :=
    { reviewId := review_id, productId := review.product_id, userId := none,
      userName := review.user_name, rating := review.rating,
      content := review.content.getD "", images := review.images.getD [],
      createdAt := now, updatedAt := now, helpful := 0, helpfulUsers := [],
      status := "active" }
  match outcome with
  | DbInsertOutcome.raise e => (HandlerResult.fault e, db)
  | DbInsertOutcome.ok insertedId =>
    match insertedId with
    | some _ =>
      (HandlerResult.response
        { success := true, review_id := some review_id, message := "리뷰가 등록되었습니다" },
       db ++ [new_review])
    | none =>
      (HandlerResult.response
        { success := false, review_id := none, message := "리뷰 저장에 실패했습니다" },
       db ++ [new_review])

/-- POST /api/reviews as routed by FastAPI: the body is validated against the
pydantic model first; a validation failure is answered by the framework's
default `RequestValidationError` handler with HTTP status 422 and never
reaches the handler.  On success the handler body runs. -/
def review_endpoint (p : ReviewPayload) (review_id now : String)
    (outcome : DbInsertOutcome) (db : List ReviewDoc) :
    HandlerResult ReviewResponse × List ReviewDoc :=
  match ReviewCreate.validate p with
  | Except.error e => (HandlerResult.httpError 422 e, db)
  | Except.ok review => create_review review review_id now outcome db

/-- Index of the last occurrence of `c` in `cs`, or `-1` when absent
(Python's `str.rfind`). -/
def lastIdxOf : List Char → Char → ℤ
  | [], _ => -1
  | ch :: rest, c =>
    let r := lastIdxOf rest c
    if 0 ≤ r then r + 1 else if ch = c then 0 else -1

/-- The extension component of `os.path.splitext` (posixpath): the suffix from
the last dot, provided that dot comes after the last path separator and some
character between the separator and the dot is not a dot (so a leading-dot
name such as ".bashrc" has no extension). -/
def splitext_ext (p : String) : String :=
  let cs := p.toList
  let sepIndex := lastIdxOf cs '/'
  let dotIndex := lastIdxOf cs '.'
  if sepIndex < dotIndex ∧
      ((List.range cs.length).any fun i =>
        decide (sepIndex < (i : ℤ) ∧ (i : ℤ) < dotIndex ∧ cs.getD i '.' ≠ '.')) = true
  then String.mk (cs.drop dotIndex.toNat)
  else ""

/-- Python's `str.lower`, character by character.  For deciding membership in
the ASCII extension whitelist and for the extensions the claims exercise this
agrees with full Unicode lowercasing. -/
def py_str_lower (s : String) : String := String.mk (s.toList.map Char.toLower)

/-- `allowed_extensions` from app.py line 119.  The source builds a Python set
whose iteration order is an implementation detail; the list keeps the literal
order. -/
def allowed_extensions : List String := [".jpg", ".jpeg", ".png", ".gif", ".webp"]

/-- The message of the extension-validation failure (app.py lines 122-125):
the f-string naming the allowed set. -/
def format_error_message : String :=
  "허용되지 않는 파일 형식입니다. (" ++ String.intercalate ", " allowed_extensions ++ ")"

/-- The uploaded file as the handler sees it: original filename, the bytes
returned by `await file.read()`, and the declared content type (`none` when
the client sent none). -/
structure UploadFileIn where
  filename : String
  contents : List ℕ
  content_type : Option String
deriving DecidableEq

/-- The S3 configuration state of the process: whether `s3_client` was
constructed (both credentials present), and the bucket/region environment
values.  `AWS_S3_BUCKET_NAME` has no default and may be absent. -/
structure S3Env where
  configured : Bool
  bucket : Option String
  region : String
deriving DecidableEq

/-- One `put_object` call made against S3, recording its arguments. -/
structure S3PutCall where
  bucket : Option String
  key : String
  body : List ℕ
  contentType : String
deriving DecidableEq

/-- The pydantic response model `ImageUploadResponse` (app.py lines 99-102). -/
structure ImageUploadResponse where
  success : Bool
  url : Option String
  message : String
deriving DecidableEq

/-- Outcome of `put_object`, chosen by the environment. -/
inductive S3Outcome where
  | ok
  | raise (err : String)
deriving DecidableEq

/-- Python's str() of an optional string, as used inside an f-string:
`None` prints as "None". -/
def pyStrOfOptStr : Option String → String
  | none => "None"
  | some s => s

/-- The handler `upload_image` (app.py lines 109-152).  `gen_name` models
`str(uuid.uuid4())`.  The second component is the list of S3 writes the
invocation performed. -/
def upload_image (env : S3Env) (file : UploadFileIn) (product_id : String)
    (gen_name : String) (outcome : S3Outcome) :
    HandlerResult ImageUploadResponse × List S3PutCall :=
  if env.configured = false then
    (HandlerResult.httpError 500 "S3 설정이 되어있지 않습니다", [])
  else if product_id = "" then
    (HandlerResult.response { success := false, url := none, message := "상품 ID가 필요합니다" }, [])
  else
    let file_ext := py_str_lower (splitext_ext file.filename)
    if file_ext ∉ allowed_extensions then
      (HandlerResult.response
        { success := false, url := none, message := format_error_message }, [])
    else
      let contents := file.contents
      if 10 * 1024 * 1024 < contents.length then
        (HandlerResult.response
          { success := false, url := none, message := "파일 크기는 10MB 이하여야 합니다" }, [])
      else
        let file_name := gen_name ++ file_ext
        let s3_key :=
          if product_id ≠ "" then "reviews/" ++ product_id ++ "/" ++ file_name
          else "reviews/" ++ file_name
        let content_type :=
          match file.content_type with
          | none => "image/jpeg"
          | some s => if s = "" then "image/jpeg" else s
        let put : S3PutCall :=
          { bucket := env.bucket, key := s3_key, body := contents,
            contentType := content_type }
        match outcome with
        | S3Outcome.ok =>
          let url := "https://" ++ pyStrOfOptStr env.bucket ++ ".s3." ++ env.region
              ++ ".amazonaws.com/" ++ s3_key
          (HandlerResult.response
            { success := true, url := some url, message := "업로드 완료" }, [put])
        | S3Outcome.raise e =>
          (HandlerResult.response
            { success := false, url := none, message := "업로드 실패: " ++ e }, [put])

/-! ### Helper lemmas about `pyRound` -/

lemma floor_le_pyRound (q : ℚ) : ⌊q⌋ ≤ pyRound q := by
  unfold pyRound
  split_ifs <;> omega

lemma le_pyRound (n : ℤ) (q : ℚ) (h : (n : ℚ) ≤ q) : n ≤ pyRound q :=
  le_trans (Int.le_floor.mpr h) (floor_le_pyRound q)

lemma pyRound_le (m : ℤ) (q : ℚ) (h : q ≤ (m : ℚ)) : pyRound q ≤ m := by
  have hfq : (⌊q⌋ : ℚ) ≤ q := Int.floor_le q
  have hfm : ⌊q⌋ ≤ m := by
    have hmono := Int.floor_le_floor h
    rwa [Int.floor_intCast] at hmono
  unfold pyRound
  split_ifs with h1 h2 h3
  · exact hfm
  · have hlt : (⌊q⌋ : ℚ) < (m : ℚ) := by linarith
    have : ⌊q⌋ < m := by exact_mod_cast hlt
    omega
  · exact hfm
  · have heq : q - (⌊q⌋ : ℚ) = 1/2 := le_antisymm (not_lt.mp h2) (not_lt.mp h1)
    have hlt : (⌊q⌋ : ℚ) < (m : ℚ) := by linarith
    have : ⌊q⌋ < m := by exact_mod_cast hlt
    omega

lemma pyRound_tie (q : ℚ) (m : ℤ) (h : q = (m : ℚ) + 1/2) :
    pyRound q = if Even m then m else m + 1 := by
  have hm : ⌊q⌋ = m := by
    rw [h, Int.floor_eq_iff] <;> push_cast <;> constructor <;> norm_num
  unfold pyRound
  rw [hm, h]
  norm_num

/-- Evaluation of pydantic validation on the spec's example payload
(productId="p1", rating=4.3, userName="alice"). -/
lemma validate_example_p1 :
    ReviewCreate.validate ⟨"p1", 4.3, "alice", none, none⟩ =
      Except.ok ⟨"p1", 4.5, "alice", none, none⟩ := by
  unfold ReviewCreate.validate
  rw [if_neg (by decide), if_neg (by norm_num), if_neg (by norm_num), if_neg (by decide),
    if_neg (by decide)]
  norm_num [validate_rating, pyRound]

/-! ### Claims about the review writer -/

/-- Claim C1: every review submission accepted by pydantic validation stores a
rating that is a multiple of 0.5 lying within [0.5, 5], and that rating is
computed as round(rating * 2) / 2. -/
theorem claim_C1_rating_quantized (p : ReviewPayload) (r : ReviewCreate)
    (h : ReviewCreate.validate p = Except.ok r) :
    r.rating = validate_rating p.rating ∧
    (∃ k : ℤ, r.rating = (k : ℚ) / 2) ∧
    1/2 ≤ r.rating ∧ r.rating ≤ 5 := by
  unfold ReviewCreate.validate at h
  split_ifs at h with h1 h2 h3 h4 h5 <;> injection h with h
  subst h
  have hlo : (1 : ℤ) ≤ pyRound (p.rating * 2) := by
    refine le_pyRound 1 _ ?_
    push_cast
    linarith [not_lt.mp h2]
  have hhi : pyRound (p.rating * 2) ≤ (10 : ℤ) := by
    refine pyRound_le 10 _ ?_
    push_cast
    linarith [not_lt.mp h3]
  have hlo' : (1 : ℚ) ≤ (pyRound (p.rating * 2) : ℚ) := by exact_mod_cast hlo
  have hhi' : ((pyRound (p.rating * 2) : ℚ)) ≤ 10 := by exact_mod_cast hhi
  refine ⟨rfl, ⟨pyRound (p.rating * 2), rfl⟩, ?_, ?_⟩ <;>
    simp only [validate_rating] <;> linarith

/-- Claim C1 witness: the payload (productId="p1", rating=4.3,
userName="alice") is accepted and its stored rating 4.5 satisfies the
invariant. -/
theorem claim_C1_witness :
    ReviewCreate.validate ⟨"p1", 4.3, "alice", none, none⟩ =
      Except.ok ⟨"p1", 4.5, "alice", none, none⟩ ∧
    ((4.5 : ℚ) = validate_rating 4.3 ∧ (∃ k : ℤ, (4.5 : ℚ) = (k : ℚ) / 2) ∧
      (1 : ℚ)/2 ≤ 4.5 ∧ (4.5 : ℚ) ≤ 5) :=
  ⟨validate_example_p1,
   claim_C1_rating_quantized ⟨"p1", 4.3, "alice", none, none⟩ ⟨"p1", 4.5, "alice", none, none⟩
     validate_example_p1⟩

/-- Claim C2: when the insert completes without a confirmed `inserted_id`, the
handler answers with a normal response (no exception, no server fault) whose
success flag is false and whose message reports the failure, for every request
and database state. -/
theorem claim_C2_unconfirmed_insert_reported (review : ReviewCreate)
    (review_id now : String) (db : List ReviewDoc) :
    (create_review review review_id now (DbInsertOutcome.ok none) db).1 =
      HandlerResult.response
        { success := false, review_id := none, message := "리뷰 저장에 실패했습니다" } :=
  rfl

/-- Claim C6: every validated review whose insert confirms persistence yields
success=true with the generated (non-empty) review id, and the inserted
document has exactly the twelve contract fields with helpful = 0,
helpfulUsers = [], status = "active", createdAt = updatedAt, content and
images defaulting to "" and [], and the rounded rating. -/
theorem claim_C6_success_insert (p : ReviewPayload) (r : ReviewCreate)
    (review_id now oid : String) (db : List ReviewDoc)
    (hv : ReviewCreate.validate p = Except.ok r) (hrid : review_id ≠ "") :
    create_review r review_id now (DbInsertOutcome.ok (some oid)) db =
      (HandlerResult.response
        { success := true, review_id := some review_id, message := "리뷰가 등록되었습니다" },
       db ++ [{ reviewId := review_id, productId := p.productId, userId := none,
                userName := p.userName, rating := validate_rating p.rating,
                content := p.content.getD "", images := p.images.getD [],
                createdAt := now, updatedAt := now, helpful := 0, helpfulUsers := [],
                status := "active" }]) ∧ review_id ≠ "" := by
  unfold ReviewCreate.validate at hv
  split_ifs at hv <;> injection hv with hv
  subst hv
  exact ⟨rfl, hrid⟩

/-- Claim C6 witness: the spec's example (productId="p1", rating=4.3,
userName="alice", content and images omitted) with a confirming insert. -/
theorem claim_C6_witness :
    create_review ⟨"p1", 4.5, "alice", none, none⟩ "rid-1" "t0"
        (DbInsertOutcome.ok (some "oid")) [] =
      (HandlerResult.response
        { success := true, review_id := some "rid-1", message := "리뷰가 등록되었습니다" },
       [{ reviewId := "rid-1", productId := "p1", userId := none, userName := "alice",
          rating := 4.5, content := "", images := [], createdAt := "t0", updatedAt := "t0",
          helpful := 0, helpfulUsers := [], status := "active" }]) ∧
      ("rid-1" : String) ≠ "" := by
  have h := claim_C6_success_insert ⟨"p1", 4.3, "alice", none, none⟩
    ⟨"p1", 4.5, "alice", none, none⟩ "rid-1" "t0" "oid" [] validate_example_p1 (by decide)
  norm_num [validate_rating, pyRound] at h ⊢
  exact h

/-- Claim C7: a submission whose productId is empty is rejected by pydantic
validation with an HTTP 422 before the handler body runs, so the database is
left untouched. -/
theorem claim_C7_no_write_on_empty_product (p : ReviewPayload) (review_id now : String)
    (outcome : DbInsertOutcome) (db : List ReviewDoc) (h : p.productId = "") :
    (review_endpoint p review_id now outcome db).2 = db ∧
    ∃ e, (review_endpoint p review_id now outcome db).1 = HandlerResult.httpError 422 e := by
  have hlen : p.productId.length < 1 := by rw [h]; decide
  have hv : ReviewCreate.validate p =
      Except.error "productId: String should have at least 1 character" := by
    unfold ReviewCreate.validate
    rw [if_pos hlen]
  unfold review_endpoint
  rw [hv]
  exact ⟨rfl, _, rfl⟩

/-- Claim C7 witness: an empty-productId submission over the empty database. -/
theorem claim_C7_witness :
    (review_endpoint ⟨"", 3, "alice", none, none⟩ "rid" "now"
        (DbInsertOutcome.ok (some "x")) []).2 = ([] : List ReviewDoc) ∧
    ∃ e, (review_endpoint ⟨"", 3, "alice", none, none⟩ "rid" "now"
        (DbInsertOutcome.ok (some "x")) []).1 = HandlerResult.httpError 422 e :=
  claim_C7_no_write_on_empty_product ⟨"", 3, "alice", none, none⟩ "rid" "now"
    (DbInsertOutcome.ok (some "x")) [] rfl

/-- Claim C9: a submitted rating lying exactly halfway between two adjacent
multiples of 0.5 (rating * 2 = m + 1/2) is stored as the multiple whose
doubled value is even: round-half-to-even. -/
theorem claim_C9_half_to_even (v : ℚ) (m : ℤ) (h : v * 2 = (m : ℚ) + 1/2) :
    Even (pyRound (v * 2)) ∧
    validate_rating v = (if Even m then (m : ℚ) else (m : ℚ) + 1) / 2 := by
  have ht := pyRound_tie (v * 2) m h
  constructor
  · rw [ht]
    split_ifs with he
    · exact he
    · exact Int.even_add_one.mpr he
  · unfold validate_rating
    rw [ht]
    split_ifs <;> push_cast <;> ring

/-- Claim C9 witness: 1.25 is stored as 1.0 (not 1.5) and 1.75 as 2.0. -/
theorem claim_C9_witness :
    validate_rating 1.25 = 1 ∧ validate_rating 1.75 = 2 := by
  have h1 := (claim_C9_half_to_even 1.25 2 (by norm_num)).2
  have h2 := (claim_C9_half_to_even 1.75 3 (by norm_num)).2
  norm_num [Int.even_iff] at h1 h2 ⊢
  exact ⟨h1, h2⟩

/-- Claim C10: every document the review handler inserts carries
userId = none; the request model has no userId field, so no input can set
it. -/
theorem claim_C10_userId_null (review : ReviewCreate) (review_id now : String)
    (outcome : DbInsertOutcome) (db : List ReviewDoc) (d : ReviewDoc)
    (hd : d ∈ (create_review review review_id now outcome db).2) (hnew : d ∉ db) :
    d.userId = none := by
  cases outcome with
  | raise e => exact absurd hd hnew
  | ok insertedId =>
    cases insertedId with
    | some oid =>
      rcases List.mem_append.mp hd with hold | hnewdoc
      · exact absurd hold hnew
      · rw [List.mem_singleton.mp hnewdoc]
    | none =>
      rcases List.mem_append.mp hd with hold | hnewdoc
      · exact absurd hold hnew
      · rw [List.mem_singleton.mp hnewdoc]

/-- Claim C10 witness: the document inserted for a concrete request over the
empty database has userId = none. -/
theorem claim_C10_witness :
    ((⟨"rid", "p1", none, "alice", 4.5, "", [], "t", "t", 0, [], "active"⟩ : ReviewDoc) ∈
      (create_review ⟨"p1", 4.5, "alice", none, none⟩ "rid" "t"
        (DbInsertOutcome.ok (some "x")) []).2) ∧
    (⟨"rid", "p1", none, "alice", 4.5, "", [], "t", "t", 0, [], "active"⟩ : ReviewDoc).userId
      = none := by
  have hmem : (⟨"rid", "p1", none, "alice", 4.5, "", [], "t", "t", 0, [], "active"⟩ : ReviewDoc) ∈
      (create_review ⟨"p1", 4.5, "alice", none, none⟩ "rid" "t"
        (DbInsertOutcome.ok (some "x")) []).2 := by
    simp [create_review]
  exact ⟨hmem,
    claim_C10_userId_null ⟨"p1", 4.5, "alice", none, none⟩ "rid" "t"
      (DbInsertOutcome.ok (some "x")) [] _ hmem (by simp)⟩

/-! ### Claims about the image uploader -/

/-- Claim C3: the upload checks run in the fixed order configured-storage,
non-empty product id, allowed extension (case-insensitive), size bound; the
first failing check determines the response and no S3 write happens on any
failure. -/
theorem claim_C3_upload_check_order (env : S3Env) (file : UploadFileIn)
    (product_id gen_name : String) (outcome : S3Outcome) :
    (env.configured = false →
      upload_image env file product_id gen_name outcome =
        (HandlerResult.httpError 500 "S3 설정이 되어있지 않습니다", [])) ∧
    (env.configured = true → product_id = "" →
      upload_image env file product_id gen_name outcome =
        (HandlerResult.response
          { success := false, url := none, message := "상품 ID가 필요합니다" }, [])) ∧
    (env.configured = true → product_id ≠ "" →
      py_str_lower (splitext_ext file.filename) ∉ allowed_extensions →
      upload_image env file product_id gen_name outcome =
        (HandlerResult.response
          { success := false, url := none, message := format_error_message }, [])) ∧
    (env.configured = true → product_id ≠ "" →
      py_str_lower (splitext_ext file.filename) ∈ allowed_extensions →
      10 * 1024 * 1024 < file.contents.length →
      upload_image env file product_id gen_name outcome =
        (HandlerResult.response
          { success := false, url := none, message := "파일 크기는 10MB 이하여야 합니다" }, [])) := by
  refine ⟨?_, ?_, ?_, ?_⟩ <;> intros <;> simp_all [upload_image]

/-- Claim C3 witness: one concrete request per failing check. -/
theorem claim_C3_witness :
    (upload_image ⟨false, some "b", "r"⟩ ⟨"a.jpg", [0], none⟩ "p1" "u" S3Outcome.ok =
      (HandlerResult.httpError 500 "S3 설정이 되어있지 않습니다", [])) ∧
    (upload_image ⟨true, some "b", "r"⟩ ⟨"a.jpg", [0], none⟩ "" "u" S3Outcome.ok =
      (HandlerResult.response
        { success := false, url := none, message := "상품 ID가 필요합니다" }, [])) ∧
    (upload_image ⟨true, some "b", "r"⟩ ⟨"pic.bmp", [0], none⟩ "p1" "u" S3Outcome.ok =
      (HandlerResult.response
        { success := false, url := none, message := format_error_message }, [])) ∧
    (upload_image ⟨true, some "b", "r"⟩ ⟨"a.jpg", List.replicate 10485761 0, none⟩ "p1" "u"
        S3Outcome.ok =
      (HandlerResult.response
        { success := false, url := none, message := "파일 크기는 10MB 이하여야 합니다" }, [])) :=
  ⟨(claim_C3_upload_check_order ⟨false, some "b", "r"⟩ ⟨"a.jpg", [0], none⟩ "p1" "u"
      S3Outcome.ok).1 rfl,
   (claim_C3_upload_check_order ⟨true, some "b", "r"⟩ ⟨"a.jpg", [0], none⟩ "" "u"
      S3Outcome.ok).2.1 rfl rfl,
   (claim_C3_upload_check_order ⟨true, some "b", "r"⟩ ⟨"pic.bmp", [0], none⟩ "p1" "u"
      S3Outcome.ok).2.2.1 rfl (by decide) (by decide),
   (claim_C3_upload_check_order ⟨true, some "b", "r"⟩ ⟨"a.jpg", List.replicate 10485761 0, none⟩
      "p1" "u" S3Outcome.ok).2.2.2 rfl (by decide) (by decide)
      (by norm_num [List.length_replicate])⟩

/-- Claim C4: when every check passes and the S3 put throws, the handler
catches it and answers success=false with the underlying error text embedded
in the message; the error never escapes as a server fault. -/
theorem claim_C4_storage_error_reported (env : S3Env) (file : UploadFileIn)
    (product_id gen_name err : String)
    (hc : env.configured = true) (hp : product_id ≠ "")
    (he : py_str_lower (splitext_ext file.filename) ∈ allowed_extensions)
    (hs : file.contents.length ≤ 10 * 1024 * 1024) :
    (upload_image env file product_id gen_name (S3Outcome.raise err)).1 =
      HandlerResult.response
        { success := false, url := none, message := "업로드 실패: " ++ err } := by
  simp [upload_image, hc, hp, he, not_lt.mpr hs]

/-- Claim C4 witness: a concrete passing request whose put throws. -/
theorem claim_C4_witness :
    (upload_image ⟨true, some "b", "r"⟩ ⟨"a.jpg", [0], none⟩ "p1" "u"
        (S3Outcome.raise "AccessDenied")).1 =
      HandlerResult.response
        { success := false, url := none, message := "업로드 실패: " ++ "AccessDenied" } :=
  claim_C4_storage_error_reported ⟨true, some "b", "r"⟩ ⟨"a.jpg", [0], none⟩ "p1" "u"
    "AccessDenied" rfl (by decide) (by decide) (by decide)

/-- Claim C5 counterexample: a passing upload whose original extension is
".JPG" produces a URL ending in the lowercased ".jpg", so the generated
filename is not `{generated name}{original extension}` as the claim states. -/
theorem claim_C5_counterexample :
    (upload_image ⟨true, some "bkt", "reg"⟩ ⟨"photo.JPG", [0], some "image/png"⟩ "p1" "u"
        S3Outcome.ok).1 =
      HandlerResult.response
        { success := true, url := some "https://bkt.s3.reg.amazonaws.com/reviews/p1/u.jpg",
          message := "업로드 완료" } ∧
    "https://bkt.s3.reg.amazonaws.com/reviews/p1/u.jpg" ≠
      "https://bkt.s3.reg.amazonaws.com/reviews/p1/u" ++ ".JPG" :=
  ⟨rfl, by decide⟩

/-- Claim C5 as amended: with storage configured, a non-empty product id and
an allowed extension, a file above 10 MiB is rejected with the size-error
message, and a file of at most 10 MiB whose put succeeds yields success=true
with the URL https://{bucket}.s3.{region}.amazonaws.com/reviews/{product
id}/{generated name}{lowercased original extension}. -/
theorem claim_C5_size_and_url (env : S3Env) (file : UploadFileIn)
    (product_id gen_name bkt : String) (outcome : S3Outcome)
    (hc : env.configured = true) (hb : env.bucket = some bkt) (hp : product_id ≠ "")
    (he : py_str_lower (splitext_ext file.filename) ∈ allowed_extensions) :
    (10 * 1024 * 1024 < file.contents.length →
      (upload_image env file product_id gen_name outcome).1 =
        HandlerResult.response
          { success := false, url := none, message := "파일 크기는 10MB 이하여야 합니다" }) ∧
    (file.contents.length ≤ 10 * 1024 * 1024 →
      (upload_image env file product_id gen_name S3Outcome.ok).1 =
        HandlerResult.response
          { success := true,
            url := some ("https://" ++ bkt ++ ".s3." ++ env.region ++ ".amazonaws.com/"
              ++ ("reviews/" ++ product_id ++ "/"
                ++ (gen_name ++ py_str_lower (splitext_ext file.filename)))),
            message := "업로드 완료" }) := by
  constructor
  · intro hs
    simp [upload_image, hc, hp, he, hs]
  · intro hs
    simp [upload_image, hc, hp, he, not_lt.mpr hs, hb, pyStrOfOptStr]

/-- Claim C5 witness: an 11 MiB file is rejected with the size error, and a
9 MiB .jpg file whose put succeeds returns the bucket/region/product URL. -/
theorem claim_C5_witness :
    ((upload_image ⟨true, some "bkt", "reg"⟩ ⟨"a.jpg", List.replicate 11534336 0, none⟩ "p1" "u"
        S3Outcome.ok).1 =
      HandlerResult.response
        { success := false, url := none, message := "파일 크기는 10MB 이하여야 합니다" }) ∧
    ((upload_image ⟨true, some "bkt", "reg"⟩ ⟨"a.jpg", List.replicate 9437184 0, none⟩ "p1" "u"
        S3Outcome.ok).1 =
      HandlerResult.response
        { success := true,
          url := some ("https://" ++ "bkt" ++ ".s3." ++ "reg" ++ ".amazonaws.com/"
            ++ ("reviews/" ++ "p1" ++ "/" ++ ("u" ++ py_str_lower (splitext_ext "a.jpg")))),
          message := "업로드 완료" }) :=
  ⟨(claim_C5_size_and_url ⟨true, some "bkt", "reg"⟩ ⟨"a.jpg", List.replicate 11534336 0, none⟩
      "p1" "u" "bkt" S3Outcome.ok rfl rfl (by decide) (by decide)).1
      (by norm_num [List.length_replicate]),
   (claim_C5_size_and_url ⟨true, some "bkt", "reg"⟩ ⟨"a.jpg", List.replicate 9437184 0, none⟩
      "p1" "u" "bkt" S3Outcome.ok rfl rfl (by decide) (by decide)).2
      (by norm_num [List.length_replicate])⟩

/-- Claim C8 counterexample: a review submission with empty productId is
answered by the framework with HTTP status 422 — an HTTP error status, not a
success=false body with 200-class semantics. -/
theorem claim_C8_counterexample :
    review_endpoint ⟨"", 3, "alice", none, none⟩ "rid" "now" (DbInsertOutcome.ok (some "x")) [] =
      (HandlerResult.httpError 422 "productId: String should have at least 1 character", []) :=
  rfl

/-- Claim C8 as amended: a review submission with a missing or invalid
required field is surfaced as an HTTP 422 validation-error response by the
framework, not as a success=false normal response; the success=false pattern
applies only to failures detected inside the handler bodies. -/
theorem claim_C8_validation_is_422 (p : ReviewPayload) (review_id now : String)
    (outcome : DbInsertOutcome) (db : List ReviewDoc) (e : String)
    (h : ReviewCreate.validate p = Except.error e) :
    (review_endpoint p review_id now outcome db).1 = HandlerResult.httpError 422 e := by
  unfold review_endpoint
  rw [h]

/-- Claim C8 witness: the empty-productId submission is answered with 422. -/
theorem claim_C8_witness :
    (review_endpoint ⟨"", 3, "alice", none, none⟩ "rid" "now"
        (DbInsertOutcome.ok (some "x")) []).1 =
      HandlerResult.httpError 422 "productId: String should have at least 1 character" :=
  claim_C8_validation_is_422 ⟨"", 3, "alice", none, none⟩ "rid" "now"
    (DbInsertOutcome.ok (some "x")) [] "productId: String should have at least 1 character" rfl
